import Mathlib

/-!
Verification of the pdf-analyser extraction-and-enrichment pipeline (src/app.py).

The Python functions are shallowly embedded as Lean functions.  External
collaborators (PyMuPDF page text layers, the OCR.space HTTP backend, the Gemini
generative backend, the SQLite store) are passed in as explicit parameters, so
call counts and returned values are part of the model:

* a PDF document is its list of per-page text layers (`List String`);
* the OCR collaborator's behaviour on a page is an `OcrPage` outcome
  (an exception raised during processing, or a parsed HTTP response);
* the generative backend is a function `String -> Option String`,
  `none` standing for a raised exception / falsy `response.text`;
* the record store is a `List Company`, a record's id being its index.

Python truthiness of strings and of nullable strings is modelled by `truthy`,
and Python `str.strip` by `strip`.
-/

namespace PdfAnalyser

/-- Python `str.strip()`: drop leading and trailing whitespace. -/
def strip (s : String) : String :=
  String.mk (((s.toList.dropWhile Char.isWhitespace).reverse.dropWhile
    Char.isWhitespace).reverse)

/-- Python truthiness of a nullable string (`None` and `""` are falsy). -/
def truthy : Option String → Bool
  | none => false
  | some s => s != ""

/-- The sparse-text threshold in `extract_text_from_pdf` (app.py line 223). -/
def MIN_TEXT_THRESHOLD : Nat := 100

/-- Primary extraction (app.py lines 214-218): concatenate each truthy per-page
text layer followed by a newline, in page order. -/
def primaryText (pages : List String) : String :=
  pages.foldl (fun acc p => if p ≠ "" then acc ++ p ++ "\n" else acc) ""

/-- Result of `extract_text_from_pdf`: the text/error pair the Python function
returns, plus the number of calls made to the OCR collaborator. -/
structure ExtractResult where
  text : Option String
  error : Option String
  ocrCalls : Nat
  deriving DecidableEq, Repr

/-- `extract_text_from_pdf` (app.py lines 200-236), with the document given as
its per-page text layers and the OCR collaborator's return value (the pair
`extract_text_via_ocr` would produce for this document) as a parameter. -/
def extract_text_from_pdf (pages : List String)
    (ocrRet : Option String × Option String) : ExtractResult :=
  if pages.length = 0 then ⟨none, some "Empty PDF file", 0⟩
  else
    let text := primaryText pages
    if strip text = "" ∨ (strip text).length < MIN_TEXT_THRESHOLD then
      let ocrText := ocrRet.1
      let ocrError := ocrRet.2
      if truthy ocrText then ⟨some (ocrText.getD ""), none, 1⟩
      else if strip text = "" then
        ⟨none,
         some (if truthy ocrError then
                 "Scanned PDF detected. OCR failed: " ++ ocrError.getD ""
               else "Scanned PDF detected. OCR yielded no text."), 1⟩
      else ⟨some text, none, 1⟩
    else ⟨some text, none, 0⟩

/-- One page's outcome at the OCR collaborator inside `extract_text_via_ocr`
(app.py lines 117-149): either an exception was raised while rendering or
posting the page, or the OCR.space response arrived, carrying the first parsed
result's text (none when `ParsedResults` is absent or empty), the
`IsErroredOnProcessing` flag and its error message. -/
inductive OcrPage where
  | exn (msg : String)
  | resp (parsed : Option String) (errored : Bool) (errMsg : String)
  deriving DecidableEq, Repr

/-- The page loop of `extract_text_via_ocr` (app.py lines 117-149): accumulate
each page's non-blank parsed text followed by a newline; an exception escapes
the loop to the enclosing handler. The `IsErroredOnProcessing` branch only
prints, so response-level errors do not affect the accumulator. -/
def ocrLoop : List OcrPage → String → Except String String
  | [], acc => .ok acc
  | .exn m :: _, _ => .error m
  | .resp parsed _ _ :: rest, acc =>
    match parsed with
    | some pt => ocrLoop rest (if strip pt ≠ "" then acc ++ pt ++ "\n" else acc)
    | none => ocrLoop rest acc

/-- The page cap in `extract_text_via_ocr` (app.py line 117). -/
def OCR_PAGE_CAP : Nat := 5

/-- `extract_text_via_ocr` (app.py lines 101-160), with the document given as
the per-page outcomes of the OCR collaborator. -/
def extract_text_via_ocr (pages : List OcrPage) : Option String × Option String :=
  match ocrLoop (pages.take OCR_PAGE_CAP) "" with
  | .error m => (none, some ("OCR Failed: " ++ m))
  | .ok full =>
    if strip full ≠ "" then (some full, none)
    else (none, some "No text could be extracted from the scanned PDF")

/-- The text the exception-free OCR loop accumulates, starting from `acc`.
It depends only on the parsed texts, not on the response error flags. -/
def collectParsed (pages : List OcrPage) (acc : String) : String :=
  pages.foldl (fun acc pg =>
    match pg with
    | .exn _ => acc
    | .resp parsed _ _ =>
      match parsed with
      | some pt => if strip pt ≠ "" then acc ++ pt ++ "\n" else acc
      | none => acc) acc

/-- Whether a page outcome is a raised exception. -/
def isExn : OcrPage → Bool
  | .exn _ => true
  | .resp _ _ _ => false

/-- No page outcome in the list is a raised exception. -/
def noExn (l : List OcrPage) : Bool :=
  l.all (fun pg => !isExn pg)

/-- The placeholder `summarize_text` returns on short input (app.py line 92). -/
def SUMMARY_PLACEHOLDER : String := "Text too short to summarize."

/-- The minimum raw length `summarize_text` requires (app.py line 91). -/
def SUMMARY_MIN_LENGTH : Nat := 50

/-- The truncation budget of the summarization prompt (app.py line 94). -/
def SUMMARY_TRUNCATION : Nat := 30000

/-- The prompt `summarize_text` submits (app.py line 94): a fixed preamble and
a hard 30000-character prefix cut of the input. -/
def summaryPrompt (text : String) : String :=
  "Please provide a concise summary of the following company information:\n\n"
    ++ text.take SUMMARY_TRUNCATION

/-- `summarize_text` (app.py lines 84-99). `modelConfigured` is whether the
global `model` is non-None; the generative backend is a function from the
prompt to `response.text`, `none` standing for a raised exception or a falsy
response. Returns the Python return value and the number of backend calls. -/
def summarize_text (modelConfigured : Bool) (backend : String → Option String)
    (text : String) : Option String × Nat :=
  if text = "" ∨ modelConfigured = false then (none, 0)
  else if text.length < SUMMARY_MIN_LENGTH then (some SUMMARY_PLACEHOLDER, 0)
  else
    match backend (summaryPrompt text) with
    | some r => (some r, 1)
    | none => (none, 1)

/-- A row of the `companies` table, as created and read by app.py. -/
structure Company where
  company_name : String
  source_type : String
  source_location : String
  raw_text : Option String
  summary : Option String
  deep_analysis : Option String
  deriving DecidableEq, Repr

/-- `save_company` (app.py lines 262-267): insert a row; `deep_analysis` is
not in the column list, so a new row holds NULL there.  The store is the list
of rows, a row's id being its index. -/
def save_company (store : List Company) (name source_type source_location : String)
    (text summary : Option String) : List Company :=
  store ++ [⟨name, source_type, source_location, text, summary, none⟩]

/-- The PDF-upload branch of `index` (app.py lines 275-305), from the point
where `extract_text_from_pdf` has returned: persist only when the returned
text is truthy, naming the record from the custom name when that is truthy,
else from the filename. -/
def handle_pdf_upload (store : List Company) (custom_name filename : String)
    (extRes : ExtractResult) (summary : Option String) : List Company :=
  if truthy extRes.text then
    let company_name := if custom_name ≠ "" then custom_name else filename
    save_company store company_name "PDF" filename extRes.text summary
  else store

/-- The URL branch of `index` (app.py lines 308-329), from the point where
`extract_text_from_url` has returned: persist only when the fetched text is
truthy, naming the record from the custom name when that is truthy, else from
the URL host. -/
def handle_url_submission (store : List Company) (custom_name url host : String)
    (fetched : Option String) (summary : Option String) : List Company :=
  if truthy fetched then
    let company_name := if custom_name ≠ "" then custom_name else host
    save_company store company_name "URL" url fetched summary
  else store

/-- The UPDATE of `deep_analyze` (app.py line 380): set `deep_analysis` of the
row with the given id. -/
def updateAnalysis (store : List Company) (id : Nat) (a : String) : List Company :=
  match store[id]? with
  | some c => store.set id { c with deep_analysis := some a }
  | none => store

/-- Result of a `deep_analyze` request: the store afterwards, the number of
calls made to the analysis collaborator (`perform_deep_analysis`, which wraps
the generative backend), and the flashed message. -/
structure AnalyzeResult where
  store : List Company
  backendCalls : Nat
  flash : String
  deriving DecidableEq, Repr

/-- `deep_analyze` (app.py lines 356-391). `fileExists` is whether the saved
PDF is still on disk; `analysisBackend` is the value `perform_deep_analysis`
would return for it (`none` for any backend failure). -/
def deep_analyze (store : List Company) (id : Nat) (fileExists : Bool)
    (analysisBackend : Option String) : AnalyzeResult :=
  match store[id]? with
  | none => ⟨store, 0, "Company not found"⟩
  | some c =>
    if truthy c.deep_analysis then ⟨store, 0, "Analysis already exists!"⟩
    else if c.source_type = "PDF" then
      if fileExists then
        if truthy analysisBackend then
          ⟨updateAnalysis store id (analysisBackend.getD ""), 1,
           "Deep analysis complete!"⟩
        else ⟨store, 1, "Deep analysis failed. Please try again later."⟩
      else ⟨store, 0, "PDF file not found. File may have been deleted."⟩
    else ⟨store, 0, "Deep analysis is only available for PDFs"⟩

/-- The read-and-check phase of `deep_analyze` (app.py lines 359-374): the
request proceeds to the backend call exactly when the row exists, its
`deep_analysis` is falsy and its source type is PDF (file existence is taken
for granted here). -/
def passesCheck (store : List Company) (id : Nat) : Bool :=
  match store[id]? with
  | none => false
  | some c => !(truthy c.deep_analysis) && decide (c.source_type = "PDF")

/-- Two concurrent `deep_analyze` requests on the same id, interleaved so that
both run the read-and-check phase (app.py lines 359-374) before either reaches
its UPDATE (line 380); `a1` and `a2` are the two backend results.  Returns the
final store and the total number of backend calls. -/
def deep_analyze_interleaved (store : List Company) (id : Nat)
    (a1 a2 : String) : List Company × Nat :=
  let p1 := passesCheck store id
  let p2 := passesCheck store id
  let s1 := if p1 then updateAnalysis store id a1 else store
  let s2 := if p2 then updateAnalysis s1 id a2 else s1
  (s2, (if p1 then 1 else 0) + (if p2 then 1 else 0))

/-- Every persisted row carries non-empty raw text. -/
def goodRaw (store : List Company) : Prop :=
  ∀ c ∈ store, ∃ t, c.raw_text = some t ∧ t ≠ ""

/-- No row carries an empty (as opposed to NULL) deep analysis. -/
def analysisInv (store : List Company) : Prop :=
  ∀ c ∈ store, c.deep_analysis ≠ some ""

/-- URL-sourced rows never carry a deep analysis. -/
def urlNoAnalysis (store : List Company) : Prop :=
  ∀ c ∈ store, c.source_type = "URL" → c.deep_analysis = none

end PdfAnalyser

namespace PdfAnalyser

/-- truthy is true exactly on non-empty some. -/
theorem truthy_iff (o : Option String) :
    truthy o = true ↔ ∃ t, o = some t ∧ t ≠ "" := by
  cases o with
  | none => simp [truthy]
  | some s => simp [truthy]

/-- C1: if primary extraction yields trimmed text of length at least the
100-character threshold, `extract_text_from_pdf` returns the primary text with
no error and makes zero OCR calls. -/
theorem extract_accepts_primary_no_ocr (pages : List String)
    (ocrRet : Option String × Option String)
    (h : MIN_TEXT_THRESHOLD ≤ (strip (primaryText pages)).length) :
    extract_text_from_pdf pages ocrRet
      = ⟨some (primaryText pages), none, 0⟩ := by
  have hne : ¬ pages.length = 0 := by
    intro h0
    have hnil : pages = [] := List.length_eq_zero.mp h0
    subst hnil
    simp [primaryText, strip, MIN_TEXT_THRESHOLD] at h
  have hs : ¬ (strip (primaryText pages) = ""
      ∨ (strip (primaryText pages)).length < MIN_TEXT_THRESHOLD) := by
    rintro (he | hlt)
    · rw [he] at h
      simp [MIN_TEXT_THRESHOLD] at h
    · exact absurd h (Nat.not_le.mpr hlt)
  simp [extract_text_from_pdf, hne, hs]

/-- Witness for C1 at a single 100-character page. -/
theorem extract_accepts_primary_no_ocr_witness :
    MIN_TEXT_THRESHOLD
        ≤ (strip (primaryText [String.mk (List.replicate 100 'a')])).length ∧
    extract_text_from_pdf [String.mk (List.replicate 100 'a')] (none, none)
      = ⟨some (primaryText [String.mk (List.replicate 100 'a')]), none, 0⟩ :=
  ⟨by decide, extract_accepts_primary_no_ocr _ _ (by decide)⟩

/-- C2: on a non-empty document whose primary text is below the threshold,
when the OCR collaborator returns non-empty text, `extract_text_from_pdf`
returns exactly that OCR text (one OCR call, no merge with the primary text). -/
theorem extract_below_threshold_returns_ocr (pages : List String) (t : String)
    (e : Option String) (hp : pages ≠ [])
    (hlt : (strip (primaryText pages)).length < MIN_TEXT_THRESHOLD)
    (ht : t ≠ "") :
    extract_text_from_pdf pages (some t, e) = ⟨some t, none, 1⟩ := by
  have hne : ¬ pages.length = 0 := by
    simpa using fun h0 => hp (List.length_eq_zero.mp h0)
  have hcond : strip (primaryText pages) = ""
      ∨ (strip (primaryText pages)).length < MIN_TEXT_THRESHOLD := Or.inr hlt
  have htr : truthy (some t) = true := by simpa [truthy] using ht
  simp [extract_text_from_pdf, hne, hcond, htr]

/-- Witness for C2: one short page, OCR returns a replacement text. -/
theorem extract_below_threshold_returns_ocr_witness :
    extract_text_from_pdf ["short"] (some "ocr replacement text", none)
      = ⟨some "ocr replacement text", none, 1⟩ :=
  extract_below_threshold_returns_ocr _ _ _ (by decide) (by decide) (by decide)

/-- C3 counterexample: one page holding only spaces. The primary text is the
non-empty string made of those spaces and a newline and is below the threshold;
the OCR collaborator yields no text; yet `extract_text_from_pdf` returns no
text and an error, where the claim promises the original primary text with no
error whenever the primary text is non-empty. -/
theorem extract_whitespace_primary_counterexample :
    primaryText ["   "] ≠ "" ∧
    (strip (primaryText ["   "])).length < MIN_TEXT_THRESHOLD ∧
    extract_text_from_pdf ["   "] (none, none)
      = ⟨none, some "Scanned PDF detected. OCR yielded no text.", 1⟩ := by
  decide

/-- C3 amended: on a non-empty document whose primary text is below the
threshold, when the OCR collaborator yields no text: if the primary text is
non-blank (non-empty after trimming), the original primary text is returned
with no error; if it is blank after trimming, no text is returned together
with an error naming the OCR detail when one is available. -/
theorem extract_below_threshold_ocr_empty (pages : List String)
    (o e : Option String) (hp : pages ≠ [])
    (hlt : (strip (primaryText pages)).length < MIN_TEXT_THRESHOLD)
    (ho : truthy o = false) :
    (strip (primaryText pages) ≠ "" →
      extract_text_from_pdf pages (o, e)
        = ⟨some (primaryText pages), none, 1⟩) ∧
    (strip (primaryText pages) = "" →
      extract_text_from_pdf pages (o, e)
        = ⟨none,
           some (if truthy e then
                   "Scanned PDF detected. OCR failed: " ++ e.getD ""
                 else "Scanned PDF detected. OCR yielded no text."), 1⟩) := by
  have hne : ¬ pages.length = 0 := by
    simpa using fun h0 => hp (List.length_eq_zero.mp h0)
  have hcond : strip (primaryText pages) = ""
      ∨ (strip (primaryText pages)).length < MIN_TEXT_THRESHOLD := Or.inr hlt
  constructor
  · intro hnb
    simp [extract_text_from_pdf, hne, hcond, ho, hnb, hlt]
  · intro hb
    simp [extract_text_from_pdf, hne, hcond, ho, hb]

/-- Witness for C3 amended: a short non-blank page with OCR yielding nothing. -/
theorem extract_below_threshold_ocr_empty_witness :
    extract_text_from_pdf ["short"] (none, some "OCR Failed: boom")
      = ⟨some (primaryText ["short"]), none, 1⟩ :=
  (extract_below_threshold_ocr_empty ["short"] none (some "OCR Failed: boom")
    (by decide) (by decide) (by decide)).1 (by decide)

/-- An exception-free OCR loop succeeds with the accumulated parsed text. -/
theorem ocrLoop_noExn (l : List OcrPage) :
    ∀ acc, noExn l = true → ocrLoop l acc = .ok (collectParsed l acc) := by
  induction l with
  | nil => intro acc _; rfl
  | cons pg rest ih =>
    intro acc h
    have h' : (!isExn pg) = true ∧ noExn rest = true := by
      simpa [noExn, List.all_cons] using h
    cases pg with
    | exn m => simp [isExn] at h'
    | resp parsed er msg =>
      cases parsed with
      | none => simpa [ocrLoop, collectParsed] using ih acc h'.2
      | some pt =>
        simpa [ocrLoop, collectParsed] using
          ih (if strip pt ≠ "" then acc ++ pt ++ "\n" else acc) h'.2

/-- The OCR loop escapes with the first exception it meets. -/
theorem ocrLoop_exn (pre : List OcrPage) :
    ∀ acc m rest, noExn pre = true →
      ocrLoop (pre ++ OcrPage.exn m :: rest) acc = .error m := by
  induction pre with
  | nil => intro acc m rest _; rfl
  | cons pg ps ih =>
    intro acc m rest h
    have h' : (!isExn pg) = true ∧ noExn ps = true := by
      simpa [noExn, List.all_cons] using h
    cases pg with
    | exn m' => simp [isExn] at h'
    | resp parsed er msg =>
      cases parsed with
      | none => simpa [ocrLoop] using ih acc m rest h'.2
      | some pt =>
        simpa [ocrLoop] using
          ih (if strip pt ≠ "" then acc ++ pt ++ "\n" else acc) m rest h'.2

/-- C4 counterexample: the OCR collaborator raises an exception on the second
page. The first page already produced non-blank text and a third page with
text was still pending, yet `extract_text_via_ocr` aborts and returns a
failure — the claim promises a failure only when no page within the cap
produced any text, with processing of remaining pages unaffected. -/
theorem ocr_exception_aborts_counterexample :
    strip "recovered page text" ≠ "" ∧
    extract_text_via_ocr [OcrPage.resp (some "recovered page text") false "",
                          OcrPage.exn "timeout",
                          OcrPage.resp (some "more text") false ""]
      = (none, some "OCR Failed: timeout") := by
  decide

/-- C4 amended: when no page within the 5-page cap raises an exception, a
response-level OCR error on a page is only logged — the page contributes no
text and the remaining pages are still processed, the output depending only on
the parsed texts — and the function fails exactly when no page within the cap
contributed non-blank text, with a fixed diagnostic, not the page-level error.
When a page within the cap raises an exception, the whole extraction aborts
and returns a failure carrying that exception message, even if earlier pages
produced text. -/
theorem ocr_per_page_policy :
    (∀ pages : List OcrPage, noExn (pages.take OCR_PAGE_CAP) = true →
      extract_text_via_ocr pages =
        if strip (collectParsed (pages.take OCR_PAGE_CAP) "") ≠ "" then
          (some (collectParsed (pages.take OCR_PAGE_CAP) ""), none)
        else (none, some "No text could be extracted from the scanned PDF")) ∧
    (∀ (pre : List OcrPage) (m : String) (rest pages : List OcrPage),
      noExn pre = true →
      pages.take OCR_PAGE_CAP = pre ++ OcrPage.exn m :: rest →
      extract_text_via_ocr pages = (none, some ("OCR Failed: " ++ m))) := by
  constructor
  · intro pages h
    rw [extract_text_via_ocr, ocrLoop_noExn _ _ h]
  · intro pre m rest pages hpre htake
    rw [extract_text_via_ocr, htake, ocrLoop_exn _ _ _ _ hpre]

/-- Witness for C4 amended: a response-level error on page one does not stop
page two from contributing its text; and an exception on page one aborts. -/
theorem ocr_per_page_policy_witness :
    extract_text_via_ocr [OcrPage.resp none true "E101",
                          OcrPage.resp (some "page two text") false ""]
      = (some "page two text\n", none) ∧
    extract_text_via_ocr [OcrPage.exn "boom"]
      = (none, some ("OCR Failed: " ++ "boom")) := by
  constructor
  · rw [ocr_per_page_policy.1 _ (by decide)]
    decide
  · exact ocr_per_page_policy.2 [] "boom" [] _ (by decide) (by decide)

/-- C5: the upload and URL pipelines insert no record when extraction returned
no (truthy) text, and every record they persist carries non-empty raw text. -/
theorem persisted_records_nonempty_text (store : List Company)
    (cn fn url host : String) (extRes : ExtractResult)
    (fetched s₁ s₂ : Option String) (hg : goodRaw store) :
    (truthy extRes.text = false →
      handle_pdf_upload store cn fn extRes s₁ = store) ∧
    (truthy fetched = false →
      handle_url_submission store cn url host fetched s₂ = store) ∧
    goodRaw (handle_pdf_upload store cn fn extRes s₁) ∧
    goodRaw (handle_url_submission store cn url host fetched s₂) := by
  refine ⟨fun h => by simp [handle_pdf_upload, h],
          fun h => by simp [handle_url_submission, h], ?_, ?_⟩
  · intro c hc
    by_cases ht : truthy extRes.text = true
    · simp only [handle_pdf_upload, save_company, if_pos ht] at hc
      rcases List.mem_append.mp hc with h1 | h2
      · exact hg c h1
      · obtain ⟨t, hteq, htne⟩ := (truthy_iff _).mp ht
        have hce := List.mem_singleton.mp h2
        exact ⟨t, by rw [hce]; exact hteq, htne⟩
    · rw [handle_pdf_upload, if_neg ht] at hc
      exact hg c hc
  · intro c hc
    by_cases ht : truthy fetched = true
    · simp only [handle_url_submission, save_company, if_pos ht] at hc
      rcases List.mem_append.mp hc with h1 | h2
      · exact hg c h1
      · obtain ⟨t, hteq, htne⟩ := (truthy_iff _).mp ht
        have hce := List.mem_singleton.mp h2
        exact ⟨t, by rw [hce]; exact hteq, htne⟩
    · rw [handle_url_submission, if_neg ht] at hc
      exact hg c hc

/-- Witness for C5: failed extraction inserts nothing into the empty store,
and a successful upload leaves every record with non-empty raw text. -/
theorem persisted_records_nonempty_text_witness :
    handle_pdf_upload [] "Acme" "acme.pdf" ⟨none, some "err", 1⟩ none = [] ∧
    goodRaw (handle_pdf_upload [] "Acme" "acme.pdf"
      ⟨some "body text", none, 0⟩ none) :=
  ⟨(persisted_records_nonempty_text [] "Acme" "acme.pdf" "" ""
      ⟨none, some "err", 1⟩ none none none (by intro c hc; cases hc)).1 rfl,
   (persisted_records_nonempty_text [] "Acme" "acme.pdf" "" ""
      ⟨some "body text", none, 0⟩ none none none (by intro c hc; cases hc)).2.2.1⟩

/-- Setting a non-empty deep analysis keeps `analysisInv`. -/
theorem analysisInv_updateAnalysis (store : List Company) (id : Nat)
    (a : String) (ha : a ≠ "") (h : analysisInv store) :
    analysisInv (updateAnalysis store id a) := by
  rw [updateAnalysis]
  cases hget : store[id]? with
  | none => exact h
  | some c =>
    intro c' hc'
    rcases List.mem_or_eq_of_mem_set hc' with h1 | h2
    · exact h c' h1
    · rw [h2]
      simpa using ha

/-- Updating the analysis of a non-URL row keeps `urlNoAnalysis`. -/
theorem urlNoAnalysis_updateAnalysis (store : List Company) (id : Nat)
    (a : String) (h : urlNoAnalysis store)
    (hcu : ∀ c, store[id]? = some c → c.source_type ≠ "URL") :
    urlNoAnalysis (updateAnalysis store id a) := by
  rw [updateAnalysis]
  cases hget : store[id]? with
  | none => exact h
  | some c =>
    intro c' hc' hurl
    rcases List.mem_or_eq_of_mem_set hc' with h1 | h2
    · exact h c' h1 hurl
    · rw [h2] at hurl
      exact absurd hurl (hcu c hget)

/-- The store a `deep_analyze` request leaves behind is either the original
store or an update with a non-empty analysis. -/
theorem deep_analyze_store_cases (store : List Company) (id : Nat)
    (fe : Bool) (b : Option String) :
    (deep_analyze store id fe b).store = store ∨
    (∃ c t, store[id]? = some c ∧ c.source_type = "PDF" ∧ t ≠ "" ∧
      (deep_analyze store id fe b).store = updateAnalysis store id t) := by
  rw [deep_analyze]
  cases hget : store[id]? with
  | none => exact Or.inl rfl
  | some c =>
    by_cases ht : truthy c.deep_analysis = true
    · simp [ht]
    · by_cases hpdf : c.source_type = "PDF"
      · cases fe with
        | false => simp [ht, hpdf]
        | true =>
          by_cases hb : truthy b = true
          · obtain ⟨t, hbeq, htne⟩ := (truthy_iff _).mp hb
            refine Or.inr ⟨c, b.getD "", rfl, hpdf, ?_, ?_⟩
            · rw [hbeq]; simpa using htne
            · simp [ht, hpdf, hb]
          · simp [ht, hpdf, hb]
      · simp [ht, hpdf]

/-- C6: over the stores this application builds, deep analysis is idempotent
at the caller: the pipelines and `deep_analyze` never produce a row with an
empty-string analysis; a request on a row whose analysis is already non-null
makes no backend call and changes nothing; and on a null-analysis PDF row with
its file present and a working backend, the first request makes exactly one
backend call and any second request on the same id makes none, returning the
stored analysis unchanged. -/
theorem deep_analyze_idempotent :
    (∀ store cn fn extRes s, analysisInv store →
        analysisInv (handle_pdf_upload store cn fn extRes s)) ∧
    (∀ store cn url host f s, analysisInv store →
        analysisInv (handle_url_submission store cn url host f s)) ∧
    (∀ store id fe b, analysisInv store →
        analysisInv (deep_analyze store id fe b).store) ∧
    (∀ store id fe b c s, store[id]? = some c → c.deep_analysis = some s →
        s ≠ "" →
        deep_analyze store id fe b = ⟨store, 0, "Analysis already exists!"⟩) ∧
    (∀ store id c a, store[id]? = some c → c.deep_analysis = none →
        c.source_type = "PDF" → a ≠ "" →
        (deep_analyze store id true (some a)).backendCalls = 1 ∧
        ∀ fe₂ b₂,
          deep_analyze (deep_analyze store id true (some a)).store id fe₂ b₂
            = ⟨(deep_analyze store id true (some a)).store, 0,
               "Analysis already exists!"⟩) := by
  have hnull : ∀ store id fe b c s, store[id]? = some c →
      c.deep_analysis = some s → s ≠ "" →
      deep_analyze store id fe b = ⟨store, 0, "Analysis already exists!"⟩ := by
    intro store id fe b c s hget hda hs
    have ht : truthy c.deep_analysis = true := by
      rw [hda]; simpa [truthy] using hs
    rw [deep_analyze, hget]
    simp [ht]
  refine ⟨?_, ?_, ?_, hnull, ?_⟩
  · intro store cn fn extRes s h c hc
    by_cases ht : truthy extRes.text = true
    · simp only [handle_pdf_upload, save_company, if_pos ht] at hc
      rcases List.mem_append.mp hc with h1 | h2
      · exact h c h1
      · rw [List.mem_singleton.mp h2]
        simp
    · rw [handle_pdf_upload, if_neg ht] at hc
      exact h c hc
  · intro store cn url host f s h c hc
    by_cases ht : truthy f = true
    · simp only [handle_url_submission, save_company, if_pos ht] at hc
      rcases List.mem_append.mp hc with h1 | h2
      · exact h c h1
      · rw [List.mem_singleton.mp h2]
        simp
    · rw [handle_url_submission, if_neg ht] at hc
      exact h c hc
  · intro store id fe b h
    rcases deep_analyze_store_cases store id fe b with heq | ⟨c, t, _, _, htne, heq⟩
    · rw [heq]; exact h
    · rw [heq]; exact analysisInv_updateAnalysis store id t htne h
  · intro store id c a hget hda hpdf ha
    have hid : id < store.length := (List.getElem?_eq_some_iff.mp hget).1
    have ht : truthy c.deep_analysis = false := by rw [hda]; rfl
    have hb : truthy (some a) = true := by simpa [truthy] using ha
    have hrun : deep_analyze store id true (some a)
        = ⟨updateAnalysis store id a, 1, "Deep analysis complete!"⟩ := by
      rw [deep_analyze, hget]
      simp [ht, hpdf, hb]
    have hstore : (deep_analyze store id true (some a)).store
        = store.set id { c with deep_analysis := some a } := by
      rw [hrun, updateAnalysis, hget]
    constructor
    · rw [hrun]
    · intro fe₂ b₂
      have hget₂ : (deep_analyze store id true (some a)).store[id]?
          = some { c with deep_analysis := some a } := by
        rw [hstore]
        exact List.getElem?_set_self hid
      exact hnull _ id fe₂ b₂ _ a hget₂ rfl ha

/-- Witness for C6: on a one-row store holding a PDF record with no analysis,
the first request makes one backend call and the second makes none. -/
theorem deep_analyze_idempotent_witness :
    (deep_analyze [⟨"Acme", "PDF", "acme.pdf", some "body", none, none⟩]
        0 true (some "analysis")).backendCalls = 1 ∧
    deep_analyze (deep_analyze
        [⟨"Acme", "PDF", "acme.pdf", some "body", none, none⟩]
        0 true (some "analysis")).store 0 true (some "other")
      = ⟨(deep_analyze [⟨"Acme", "PDF", "acme.pdf", some "body", none, none⟩]
          0 true (some "analysis")).store, 0, "Analysis already exists!"⟩ :=
  have h := deep_analyze_idempotent.2.2.2.2
    [⟨"Acme", "PDF", "acme.pdf", some "body", none, none⟩] 0
    ⟨"Acme", "PDF", "acme.pdf", some "body", none, none⟩ "analysis"
    rfl rfl rfl (by decide)
  ⟨h.1, h.2 true (some "other")⟩

/-- C7: URL-sourced rows never acquire a deep analysis — the pipelines create
them with a null analysis and `deep_analyze` never writes to them — and a
deep-analysis request on such a row makes no backend call, changes nothing,
and flashes the not-applicable warning. -/
theorem deep_analyze_url_not_applicable :
    (∀ store cn url host f s, urlNoAnalysis store →
        urlNoAnalysis (handle_url_submission store cn url host f s)) ∧
    (∀ store cn fn extRes s, urlNoAnalysis store →
        urlNoAnalysis (handle_pdf_upload store cn fn extRes s)) ∧
    (∀ store id fe b, urlNoAnalysis store →
        urlNoAnalysis (deep_analyze store id fe b).store) ∧
    (∀ store id fe b c, store[id]? = some c → c.source_type = "URL" →
        c.deep_analysis = none →
        deep_analyze store id fe b
          = ⟨store, 0, "Deep analysis is only available for PDFs"⟩) := by
  refine ⟨?_, ?_, ?_, ?_⟩
  · intro store cn url host f s h c hc
    by_cases ht : truthy f = true
    · simp only [handle_url_submission, save_company, if_pos ht] at hc
      rcases List.mem_append.mp hc with h1 | h2
      · exact h c h1
      · rw [List.mem_singleton.mp h2]
        intro _; rfl
    · rw [handle_url_submission, if_neg ht] at hc
      exact h c hc
  · intro store cn fn extRes s h c hc
    by_cases ht : truthy extRes.text = true
    · simp only [handle_pdf_upload, save_company, if_pos ht] at hc
      rcases List.mem_append.mp hc with h1 | h2
      · exact h c h1
      · rw [List.mem_singleton.mp h2]
        intro hu; simp at hu
    · rw [handle_pdf_upload, if_neg ht] at hc
      exact h c hc
  · intro store id fe b h
    rcases deep_analyze_store_cases store id fe b with heq | ⟨c, t, hget, hpdf, _, heq⟩
    · rw [heq]; exact h
    · rw [heq]
      refine urlNoAnalysis_updateAnalysis store id t h ?_
      intro c' hget'
      rw [hget] at hget'
      cases hget'
      rw [hpdf]
      decide
  · intro store id fe b c hget hurl hda
    have ht : truthy c.deep_analysis = false := by rw [hda]; rfl
    have hpdf : ¬ c.source_type = "PDF" := by
      rw [hurl]; decide
    rw [deep_analyze, hget]
    simp [ht, hpdf]

/-- Witness for C7: a URL-sourced row rejects the request with the warning. -/
theorem deep_analyze_url_not_applicable_witness :
    deep_analyze [⟨"example.com", "URL", "http://example.com", some "body",
        none, none⟩] 0 true (some "analysis")
      = ⟨[⟨"example.com", "URL", "http://example.com", some "body",
          none, none⟩], 0, "Deep analysis is only available for PDFs"⟩ :=
  deep_analyze_url_not_applicable.2.2.2
    [⟨"example.com", "URL", "http://example.com", some "body", none, none⟩]
    0 true (some "analysis")
    ⟨"example.com", "URL", "http://example.com", some "body", none, none⟩
    rfl rfl rfl

/-- C8 counterexample: a 55-character input made of 10 leading spaces and 45
letters has trimmed length 45, below the 50-character minimum, yet
`summarize_text` does not return the placeholder: the length check at app.py
line 91 uses the raw length `len(text)`, so the backend is called once and its
answer returned. -/
theorem summarize_trimmed_length_counterexample :
    (strip (String.mk (List.replicate 10 ' ')
        ++ String.mk (List.replicate 45 'a'))).length < SUMMARY_MIN_LENGTH ∧
    summarize_text true (fun _ => some "BACKEND SUMMARY")
        (String.mk (List.replicate 10 ' ') ++ String.mk (List.replicate 45 'a'))
      = (some "BACKEND SUMMARY", 1) := by
  decide

/-- C8 amended: for every non-empty input whose raw (untrimmed) length is
below the fixed 50-character minimum, `summarize_text` returns the fixed
placeholder without any backend call, provided the generative backend is
configured. -/
theorem summarize_short_returns_placeholder (backend : String → Option String)
    (text : String) (h1 : text ≠ "") (h2 : text.length < SUMMARY_MIN_LENGTH) :
    summarize_text true backend text = (some SUMMARY_PLACEHOLDER, 0) := by
  rw [summarize_text]
  simp [h1, h2]

/-- Witness for C8 amended on a five-character input. -/
theorem summarize_short_returns_placeholder_witness :
    summarize_text true (fun _ => some "BACKEND SUMMARY") "hello"
      = (some SUMMARY_PLACEHOLDER, 0) :=
  summarize_short_returns_placeholder _ "hello" (by decide) (by decide)

/-- C10: with no configured backend or an empty input, `summarize_text`
returns `none` and makes no backend call, whatever the length; hence the
short-input placeholder can only appear when a backend is configured and the
input is non-empty. -/
theorem summarize_none_when_unconfigured_or_empty (mc : Bool)
    (backend : String → Option String) (text : String) :
    (mc = false ∨ text = "" → summarize_text mc backend text = (none, 0)) ∧
    ((summarize_text mc backend text).1 = some SUMMARY_PLACEHOLDER →
      mc = true ∧ text ≠ "") := by
  constructor
  · rintro (hmc | htext)
    · rw [summarize_text, if_pos (Or.inr hmc)]
    · rw [summarize_text, if_pos (Or.inl htext)]
  · intro hph
    by_cases hmc : mc = true
    · refine ⟨hmc, ?_⟩
      intro htext
      rw [summarize_text, if_pos (Or.inl htext)] at hph
      cases hph
    · rw [summarize_text,
          if_pos (Or.inr (Bool.not_eq_true mc ▸ hmc))] at hph
      cases hph

/-- Witness for C10: unconfigured backend on a long input yields none with no
backend call, and an empty input does too. -/
theorem summarize_none_when_unconfigured_or_empty_witness :
    summarize_text false (fun _ => some "BACKEND SUMMARY")
        (String.mk (List.replicate 60 'a')) = (none, 0) ∧
    summarize_text true (fun _ => some "BACKEND SUMMARY") "" = (none, 0) :=
  ⟨(summarize_none_when_unconfigured_or_empty false _ _).1 (Or.inl rfl),
   (summarize_none_when_unconfigured_or_empty true _ "").1 (Or.inr rfl)⟩

/-- C9: the check-then-write of `deep_analyze` is not guarded. With a one-row
store holding a PDF record with a null analysis, two concurrent triggers
interleaved so that both run the read-and-check phase before either writes
both pass the null check, perform two backend calls in total, and both write —
the second write overwriting the first, so `deep_analysis` does not transition
null to non-null exactly once. -/
theorem deep_analyze_race_unguarded :
    passesCheck [⟨"Acme", "PDF", "acme.pdf", some "body", none, none⟩] 0
      = true ∧
    deep_analyze_interleaved
        [⟨"Acme", "PDF", "acme.pdf", some "body", none, none⟩] 0 "A1" "A2"
      = ([⟨"Acme", "PDF", "acme.pdf", some "body", none, some "A2"⟩], 2) := by
  decide

end PdfAnalyser
